import Mathlib

/-!
Shallow embedding of the Bank Churn Prediction app (src/app.py) and proofs of
the specification's testable properties about it.

Modelling conventions: Python ints are ℤ, currency floats are ℚ, the ordered
feature dict built by `create_feature_vector` (and wrapped in a one-row
DataFrame) is a `List (String × ℚ)` in the source's insertion order, and the
trained classifier is an uninterpreted function from feature vectors to a
(label, churn-probability) pair.
-/

/-- Gender enum of the input form (`st.selectbox("Gender", ["Male", "Female"])`). -/
inductive Gender where
  | Male
  | Female
deriving DecidableEq, Repr

/-- Country enum of the input form (`st.selectbox("Country", ["France", "Germany", "Spain"])`). -/
inductive Country where
  | France
  | Germany
  | Spain
deriving DecidableEq, Repr

/-- The raw customer attributes collected by the sidebar (the `input_data` dict of `main`). -/
structure CustomerProfile where
  credit_score : ℤ
  gender : Gender
  age : ℤ
  tenure : ℤ
  balance : ℚ
  products_number : ℤ
  credit_card : Bool
  active_member : Bool
  estimated_salary : ℚ
  country : Country
deriving DecidableEq, Repr

/-- `create_feature_vector` from src/app.py: the ordered dict of 21 named numeric
features, in the source's insertion order.  The `pd.DataFrame([features])` row is
exactly this ordered association list. -/
def create_feature_vector (p : CustomerProfile) : List (String × ℚ) :=
  [ ("credit_score", (p.credit_score : ℚ)),
    ("gender", if p.gender = Gender.Male then 1 else 0),
    ("age", (p.age : ℚ)),
    ("tenure", (p.tenure : ℚ)),
    ("balance", p.balance),
    ("products_number", (p.products_number : ℚ)),
    ("credit_card", if p.credit_card then 1 else 0),
    ("active_member", if p.active_member then 1 else 0),
    ("estimated_salary", p.estimated_salary),
    ("country_Germany", if p.country = Country.Germany then 1 else 0),
    ("country_Spain", if p.country = Country.Spain then 1 else 0),
    ("balance_salary_ratio", if p.estimated_salary > 0 then p.balance / p.estimated_salary else 0),
    ("high_balance", if p.balance > 100000 then 1 else 0),
    ("active_credit_combo", if p.active_member && p.credit_card then 1 else 0),
    ("products_per_year", if p.tenure > 0 then (p.products_number : ℚ) / (p.tenure : ℚ) else 0),
    ("age_group_31-40", if 31 ≤ p.age ∧ p.age ≤ 40 then 1 else 0),
    ("age_group_41-50", if 41 ≤ p.age ∧ p.age ≤ 50 then 1 else 0),
    ("age_group_51-60", if 51 ≤ p.age ∧ p.age ≤ 60 then 1 else 0),
    ("age_group_60+", if p.age > 60 then 1 else 0),
    ("tenure_group_Medium", if 3 ≤ p.tenure ∧ p.tenure ≤ 7 then 1 else 0),
    ("tenure_group_High", if p.tenure > 7 then 1 else 0) ]

/-- Value of a named field of a feature vector (0 if the name is absent). -/
def fieldVal (fv : List (String × ℚ)) (key : String) : ℚ :=
  (fv.lookup key).getD 0

/-- The 21 field names of §4.1 of the spec, in their fixed order. -/
def featureNames : List String :=
  [ "credit_score", "gender", "age", "tenure", "balance", "products_number",
    "credit_card", "active_member", "estimated_salary", "country_Germany",
    "country_Spain", "balance_salary_ratio", "high_balance",
    "active_credit_combo", "products_per_year", "age_group_31-40",
    "age_group_41-50", "age_group_51-60", "age_group_60+",
    "tenure_group_Medium", "tenure_group_High" ]

/-- The §4.1 derivation table of the spec, transcribed field by field from the
spec's words (division guards written `0 if the divisor = 0`, as the table
states them).  Refinement target for the encoder. -/
def encode_spec (p : CustomerProfile) : List (String × ℚ) :=
  [ ("credit_score", (p.credit_score : ℚ)),
    ("gender", if p.gender = Gender.Male then 1 else 0),
    ("age", (p.age : ℚ)),
    ("tenure", (p.tenure : ℚ)),
    ("balance", p.balance),
    ("products_number", (p.products_number : ℚ)),
    ("credit_card", if p.credit_card then 1 else 0),
    ("active_member", if p.active_member then 1 else 0),
    ("estimated_salary", p.estimated_salary),
    ("country_Germany", if p.country = Country.Germany then 1 else 0),
    ("country_Spain", if p.country = Country.Spain then 1 else 0),
    ("balance_salary_ratio", if p.estimated_salary = 0 then 0 else p.balance / p.estimated_salary),
    ("high_balance", if p.balance > 100000 then 1 else 0),
    ("active_credit_combo", if p.active_member && p.credit_card then 1 else 0),
    ("products_per_year", if p.tenure = 0 then 0 else (p.products_number : ℚ) / (p.tenure : ℚ)),
    ("age_group_31-40", if 31 ≤ p.age ∧ p.age ≤ 40 then 1 else 0),
    ("age_group_41-50", if 41 ≤ p.age ∧ p.age ≤ 50 then 1 else 0),
    ("age_group_51-60", if 51 ≤ p.age ∧ p.age ≤ 60 then 1 else 0),
    ("age_group_60+", if p.age > 60 then 1 else 0),
    ("tenure_group_Medium", if 3 ≤ p.tenure ∧ p.tenure ≤ 7 then 1 else 0),
    ("tenure_group_High", if p.tenure > 7 then 1 else 0) ]

/-- A profile within the documented §3 ranges of the input widgets. -/
def ValidProfile (p : CustomerProfile) : Prop :=
  300 ≤ p.credit_score ∧ p.credit_score ≤ 850 ∧
  18 ≤ p.age ∧ p.age ≤ 100 ∧
  0 ≤ p.tenure ∧ p.tenure ≤ 20 ∧
  0 ≤ p.balance ∧
  1 ≤ p.products_number ∧ p.products_number ≤ 4 ∧
  0 ≤ p.estimated_salary

instance (p : CustomerProfile) : Decidable (ValidProfile p) := by
  unfold ValidProfile; infer_instance

/-- The risk-factor derivation of `main` (src/app.py lines 204-219): seven
conditional appends to `risk_factors`, in source order. -/
def assessRisk (p : CustomerProfile) : List String :=
  (if p.age > 50 then ["High age group"] else []) ++
  (if p.balance = 0 then ["Zero balance"] else []) ++
  (if p.products_number = 1 then ["Single product"] else []) ++
  (if !p.active_member then ["Inactive member"] else []) ++
  (if !p.credit_card then ["No credit card"] else []) ++
  (if p.tenure < 2 then ["Low tenure"] else []) ++
  (if p.credit_score < 600 then ["Low credit score"] else [])

/-- The seven §4.3 rules as a (trigger, label) table in the spec's fixed
priority order. -/
def riskRules (p : CustomerProfile) : List (Bool × String) :=
  [ (decide (p.age > 50), "High age group"),
    (decide (p.balance = 0), "Zero balance"),
    (decide (p.products_number = 1), "Single product"),
    (!p.active_member, "Inactive member"),
    (!p.credit_card, "No credit card"),
    (decide (p.tenure < 2), "Low tenure"),
    (decide (p.credit_score < 600), "Low credit score") ]

/-- Spec-side risk assessor: the labels of the triggered §4.3 rules, in table
order.  Refinement target for `assessRisk`. -/
def riskSpec (p : CustomerProfile) : List String :=
  ((riskRules p).filter (fun r => r.1)).map (fun r => r.2)

/-- The seven risk-factor labels in their fixed priority order. -/
def sevenRiskLabels : List String :=
  [ "High age group", "Zero balance", "Single product", "Inactive member",
    "No credit card", "Low tenure", "Low credit score" ]

/-- The recommendation lookup of `main` (src/app.py lines 231-244), keyed on the
predicted class label (`if prediction == 1`). -/
def recommendationsFor (prediction : ℤ) : List String :=
  if prediction = 1 then
    [ "Offer personalized retention campaign",
      "Provide premium customer service",
      "Consider product bundle offers",
      "Implement targeted engagement strategies" ]
  else
    [ "Continue regular engagement",
      "Offer product upgrades",
      "Maintain service quality",
      "Monitor for any changes" ]

/-- The trained classifier, treated as an uninterpreted fixed function from a
feature vector to (predicted class label, churn probability), the combined
result of `model.predict` and `model.predict_proba(...)[0][1]`. -/
def ModelFn : Type :=
  List (String × ℚ) → ℤ × ℚ

/-- What one press of "Predict Churn" computes from the raw profile and the
model: prediction, displayed churn probability (`prediction_proba[1] * 100`),
risk factors and recommendations. -/
structure PredictionOutputs where
  prediction : ℤ
  churn_probability : ℚ
  risk_factors : List String
  recommendations : List String
deriving DecidableEq, Repr

/-- The prediction cycle of `main` (src/app.py lines 142-247): encode, predict,
assess risk from the raw profile, recommend from the predicted label. -/
def runPrediction (model : ModelFn) (p : CustomerProfile) : PredictionOutputs :=
  let fv := create_feature_vector p
  let out := model fv
  { prediction := out.1,
    churn_probability := out.2 * 100,
    risk_factors := assessRisk p,
    recommendations := recommendationsFor out.1 }

/-- Two consecutive presses of "Predict Churn" with the same profile and the
same cached model handle. -/
def runTwice (model : ModelFn) (p : CustomerProfile) : PredictionOutputs × PredictionOutputs :=
  (runPrediction model p, runPrediction model p)

/-- State of the model artifact `xgb_churn_model.pkl` on disk. -/
inductive ArtifactState where
  | ok
  | missing
  | corrupt
deriving DecidableEq, Repr

/-- Python exceptions relevant to `joblib.load`: `FileNotFoundError`, or any
other load-time error (corrupt/unreadable artifact). -/
inductive PyExn where
  | fileNotFound
  | otherError
deriving DecidableEq, Repr

/-- A loaded classifier handle (contents irrelevant to the load-path claims). -/
inductive ModelHandle where
  | handle
deriving DecidableEq, Repr

/-- `joblib.load('xgb_churn_model.pkl')`: returns a handle, or raises. -/
def joblib_load : ArtifactState → Except PyExn ModelHandle
  | ArtifactState.ok => Except.ok ModelHandle.handle
  | ArtifactState.missing => Except.error PyExn.fileNotFound
  | ArtifactState.corrupt => Except.error PyExn.otherError

/-- The diagnostic `load_model` shows via `st.error` when the artifact is absent. -/
def modelNotFoundMsg : String :=
  "Model file not found. Please ensure 'churn_model.pkl' is in the same directory."

/-- `load_model` from src/app.py lines 54-62: `try: joblib.load(...)` with an
`except FileNotFoundError` that shows `st.error` and returns `None`; any other
exception propagates.  Result: the optional handle plus the list of emitted
diagnostics, or an uncaught exception. -/
def load_model (a : ArtifactState) : Except PyExn (Option ModelHandle × List String) :=
  match joblib_load a with
  | Except.ok m => Except.ok (some m, [])
  | Except.error PyExn.fileNotFound => Except.ok (none, [modelNotFoundMsg])
  | Except.error e => Except.error e

/-- Whether `main` halted at the model gate (`st.stop()`) or reached the
inference phase. -/
inductive MainPhase where
  | stoppedNoModel
  | inferenceReached
deriving DecidableEq, Repr

/-- The model gate of `main` (src/app.py lines 99-101): `model = load_model()`,
then `st.stop()` when it is `None`; encode/predict run only past this gate. -/
def main_model_gate (a : ArtifactState) : Except PyExn (MainPhase × List String) :=
  match load_model a with
  | Except.ok (some _, msgs) => Except.ok (MainPhase.inferenceReached, msgs)
  | Except.ok (none, msgs) => Except.ok (MainPhase.stoppedNoModel, msgs)
  | Except.error e => Except.error e

/-- Scenario 1 of §8: the spec's baseline customer. -/
def profile1 : CustomerProfile :=
  { credit_score := 650, gender := Gender.Male, age := 35, tenure := 5,
    balance := 50000, products_number := 2, credit_card := true,
    active_member := true, estimated_salary := 60000, country := Country.France }

/-- Scenario 2 of §8: every risk rule triggered (unconstrained fields chosen
arbitrarily within range). -/
def profile2 : CustomerProfile :=
  { credit_score := 550, gender := Gender.Female, age := 55, tenure := 1,
    balance := 0, products_number := 1, credit_card := false,
    active_member := false, estimated_salary := 10000, country := Country.France }

/-- A profile with estimated_salary = 0 and tenure = 0 (division-guard case). -/
def zeroDivProfile : CustomerProfile :=
  { credit_score := 650, gender := Gender.Female, age := 40, tenure := 0,
    balance := 1000, products_number := 2, credit_card := true,
    active_member := true, estimated_salary := 0, country := Country.Germany }

/-- An out-of-range profile with negative estimated_salary and tenure. -/
def negDivProfile : CustomerProfile :=
  { credit_score := 650, gender := Gender.Female, age := 40, tenure := -3,
    balance := 1000, products_number := 2, credit_card := true,
    active_member := true, estimated_salary := -7, country := Country.Spain }

/-! Helper lemmas: definitional values of the individual feature fields, and
small list facts shared by several claim proofs. -/

theorem fv_country_Germany (p : CustomerProfile) :
    fieldVal (create_feature_vector p) "country_Germany"
      = if p.country = Country.Germany then 1 else 0 := rfl

theorem fv_country_Spain (p : CustomerProfile) :
    fieldVal (create_feature_vector p) "country_Spain"
      = if p.country = Country.Spain then 1 else 0 := rfl

theorem fv_balance_salary_ratio (p : CustomerProfile) :
    fieldVal (create_feature_vector p) "balance_salary_ratio"
      = if p.estimated_salary > 0 then p.balance / p.estimated_salary else 0 := rfl

theorem fv_high_balance (p : CustomerProfile) :
    fieldVal (create_feature_vector p) "high_balance"
      = if p.balance > 100000 then 1 else 0 := rfl

theorem fv_active_credit_combo (p : CustomerProfile) :
    fieldVal (create_feature_vector p) "active_credit_combo"
      = if p.active_member && p.credit_card then 1 else 0 := rfl

theorem fv_products_per_year (p : CustomerProfile) :
    fieldVal (create_feature_vector p) "products_per_year"
      = if p.tenure > 0 then (p.products_number : ℚ) / (p.tenure : ℚ) else 0 := rfl

theorem fv_age_group_31_40 (p : CustomerProfile) :
    fieldVal (create_feature_vector p) "age_group_31-40"
      = if 31 ≤ p.age ∧ p.age ≤ 40 then 1 else 0 := rfl

theorem fv_age_group_41_50 (p : CustomerProfile) :
    fieldVal (create_feature_vector p) "age_group_41-50"
      = if 41 ≤ p.age ∧ p.age ≤ 50 then 1 else 0 := rfl

theorem fv_age_group_51_60 (p : CustomerProfile) :
    fieldVal (create_feature_vector p) "age_group_51-60"
      = if 51 ≤ p.age ∧ p.age ≤ 60 then 1 else 0 := rfl

theorem fv_age_group_60_plus (p : CustomerProfile) :
    fieldVal (create_feature_vector p) "age_group_60+"
      = if p.age > 60 then 1 else 0 := rfl

theorem fv_tenure_group_Medium (p : CustomerProfile) :
    fieldVal (create_feature_vector p) "tenure_group_Medium"
      = if 3 ≤ p.tenure ∧ p.tenure ≤ 7 then 1 else 0 := rfl

theorem fv_tenure_group_High (p : CustomerProfile) :
    fieldVal (create_feature_vector p) "tenure_group_High"
      = if p.tenure > 7 then 1 else 0 := rfl

theorem ite_singleton_sublist (c : Prop) [Decidable c] (a : String) :
    (if c then [a] else []).Sublist [a] := by
  split
  · exact List.Sublist.refl _
  · exact List.nil_sublist _

/-- C1: for every valid CustomerProfile, `create_feature_vector` produces exactly
the 21 fields of the §4.1 table, named and ordered as the table lists them, each
field equal to the table's derivation (formalised as `encode_spec`). -/
theorem churn_C1 (p : CustomerProfile) (hv : ValidProfile p) :
    create_feature_vector p = encode_spec p ∧
    (create_feature_vector p).map Prod.fst = featureNames ∧
    (create_feature_vector p).length = 21 := by
  obtain ⟨-, -, -, -, ht0, -, -, -, -, hs⟩ := hv
  refine ⟨?_, rfl, rfl⟩
  unfold create_feature_vector encode_spec
  simp only [List.cons.injEq, Prod.mk.injEq, eq_self_iff_true, and_true, true_and]
  constructor
  · rcases hs.lt_or_eq with h | h
    · rw [if_pos h, if_neg h.ne']
    · rw [← h]; norm_num
  · rcases ht0.lt_or_eq with h | h
    · rw [if_pos h, if_neg h.ne']
    · rw [← h]; norm_num

/-- Witness for C1: the conclusion instantiated at the scenario-1 profile. -/
theorem churn_C1_witness :
    create_feature_vector profile1 = encode_spec profile1 ∧
    (create_feature_vector profile1).map Prod.fst = featureNames ∧
    (create_feature_vector profile1).length = 21 :=
  churn_C1 profile1 (by decide)

/-- C2: with estimated_salary = 0 the encoder returns balance_salary_ratio = 0,
and with tenure = 0 it returns products_per_year = 0; the division branch of the
guard is not taken, so encoding cannot fault on division by zero. -/
theorem churn_C2 (p : CustomerProfile) :
    (p.estimated_salary = 0 → fieldVal (create_feature_vector p) "balance_salary_ratio" = 0) ∧
    (p.tenure = 0 → fieldVal (create_feature_vector p) "products_per_year" = 0) := by
  constructor
  · intro h
    rw [fv_balance_salary_ratio, h]
    norm_num
  · intro h
    rw [fv_products_per_year, h]
    norm_num

/-- Witness for C2: both conclusions at a profile with salary 0 and tenure 0. -/
theorem churn_C2_witness :
    fieldVal (create_feature_vector zeroDivProfile) "balance_salary_ratio" = 0 ∧
    fieldVal (create_feature_vector zeroDivProfile) "products_per_year" = 0 :=
  ⟨(churn_C2 zeroDivProfile).1 rfl, (churn_C2 zeroDivProfile).2 rfl⟩

/-- C9: the division guards are strict comparisons, so every profile with
estimated_salary ≤ 0 (negative included) gets balance_salary_ratio = 0, and every
profile with tenure ≤ 0 gets products_per_year = 0. -/
theorem churn_C9 (p : CustomerProfile) :
    (p.estimated_salary ≤ 0 → fieldVal (create_feature_vector p) "balance_salary_ratio" = 0) ∧
    (p.tenure ≤ 0 → fieldVal (create_feature_vector p) "products_per_year" = 0) := by
  constructor
  · intro h
    rw [fv_balance_salary_ratio, if_neg (not_lt.mpr h)]
  · intro h
    rw [fv_products_per_year, if_neg (not_lt.mpr h)]

/-- Witness for C9: both conclusions at a profile with salary -7 and tenure -3. -/
theorem churn_C9_witness :
    fieldVal (create_feature_vector negDivProfile) "balance_salary_ratio" = 0 ∧
    fieldVal (create_feature_vector negDivProfile) "products_per_year" = 0 :=
  ⟨(churn_C9 negDivProfile).1 (by norm_num [negDivProfile]),
   (churn_C9 negDivProfile).2 (by norm_num [negDivProfile])⟩

/-- C3: the encoder's one-hot groups are mutually exclusive: at most one
age_group_* field is 1, at most one tenure_group_* field is 1, country_Germany
and country_Spain are never both 1, and both country fields are 0 exactly when
the country is France. -/
theorem churn_C3 (p : CustomerProfile) :
    ([fieldVal (create_feature_vector p) "age_group_31-40",
      fieldVal (create_feature_vector p) "age_group_41-50",
      fieldVal (create_feature_vector p) "age_group_51-60",
      fieldVal (create_feature_vector p) "age_group_60+"].count 1 ≤ 1) ∧
    ([fieldVal (create_feature_vector p) "tenure_group_Medium",
      fieldVal (create_feature_vector p) "tenure_group_High"].count 1 ≤ 1) ∧
    ([fieldVal (create_feature_vector p) "country_Germany",
      fieldVal (create_feature_vector p) "country_Spain"].count 1 ≤ 1) ∧
    ((fieldVal (create_feature_vector p) "country_Germany" = 0 ∧
      fieldVal (create_feature_vector p) "country_Spain" = 0) ↔
        p.country = Country.France) := by
  refine ⟨?_, ?_, ?_, ?_⟩
  · simp only [fv_age_group_31_40, fv_age_group_41_50, fv_age_group_51_60,
      fv_age_group_60_plus]
    by_cases h1 : 31 ≤ p.age ∧ p.age ≤ 40 <;>
    by_cases h2 : 41 ≤ p.age ∧ p.age ≤ 50 <;>
    by_cases h3 : 51 ≤ p.age ∧ p.age ≤ 60 <;>
    by_cases h4 : p.age > 60 <;>
      (simp [h1, h2, h3, h4, List.count_cons, List.count_nil]; try omega)
  · simp only [fv_tenure_group_Medium, fv_tenure_group_High]
    by_cases h1 : 3 ≤ p.tenure ∧ p.tenure ≤ 7 <;>
    by_cases h2 : p.tenure > 7 <;>
      (simp [h1, h2, List.count_cons, List.count_nil]; try omega)
  · rcases hc : p.country <;>
      simp [fv_country_Germany, fv_country_Spain, hc, List.count_cons,
        List.count_nil]
  · rcases hc : p.country <;>
      simp [fv_country_Germany, fv_country_Spain, hc]

/-- C4: `assessRisk` returns exactly the labels of the triggered §4.3 rules in
their fixed priority order (it equals the spec-side filtered rule table on every
profile), and the scenario-2 profile triggers all seven labels in that order. -/
theorem churn_C4 :
    (∀ p : CustomerProfile, assessRisk p = riskSpec p) ∧
    assessRisk profile2 =
      [ "High age group", "Zero balance", "Single product", "Inactive member",
        "No credit card", "Low tenure", "Low credit score" ] := by
  constructor
  · intro p
    by_cases h1 : p.age > 50 <;>
    by_cases h2 : p.balance = 0 <;>
    by_cases h3 : p.products_number = 1 <;>
    by_cases h4 : p.active_member = true <;>
    by_cases h5 : p.credit_card = true <;>
    by_cases h6 : p.tenure < 2 <;>
    by_cases h7 : p.credit_score < 600 <;>
      simp [assessRisk, riskSpec, riskRules, h1, h2, h3, h4, h5, h6, h7]
  · rfl

/-- C10: on every profile the risk-factor list is a sublist of the fixed
seven-label list, has no duplicate labels, and has length at most 7. -/
theorem churn_C10 (p : CustomerProfile) :
    (assessRisk p).Sublist sevenRiskLabels ∧
    (assessRisk p).Nodup ∧
    (assessRisk p).length ≤ 7 := by
  have hsub : (assessRisk p).Sublist sevenRiskLabels := by
    unfold assessRisk sevenRiskLabels
    exact ((((((ite_singleton_sublist (p.age > 50) _).append
      (ite_singleton_sublist (p.balance = 0) _)).append
        (ite_singleton_sublist (p.products_number = 1) _)).append
          (ite_singleton_sublist (!p.active_member) _)).append
            (ite_singleton_sublist (!p.credit_card) _)).append
              (ite_singleton_sublist (p.tenure < 2) _)).append
                (ite_singleton_sublist (p.credit_score < 600) _)
  exact ⟨hsub, List.Nodup.sublist hsub (by decide), hsub.length_le⟩

/-- C5 counterexample: at the scenario-1 profile (age 35) the claim's
"all age_group_* fields equal 0" is false: age_group_31-40 evaluates to 1. -/
theorem churn_C5_counterexample :
    decide (fieldVal (create_feature_vector profile1) "age_group_31-40" = 0) = false := by
  rfl

/-- C5 amended: at the scenario-1 profile the encoder yields
balance_salary_ratio = 5/6 (0.8333..., which is 0.833 only after rounding to
three decimals), high_balance = 0, active_credit_combo = 1,
products_per_year = 2/5, tenure_group_Medium = 1, age_group_31-40 = 1 (age 35
falls in the 31-40 bucket) with the other age_group_* fields 0, and assessRisk
on that profile returns the empty list. -/
theorem churn_C5_amended :
    fieldVal (create_feature_vector profile1) "balance_salary_ratio" = 5 / 6 ∧
    fieldVal (create_feature_vector profile1) "high_balance" = 0 ∧
    fieldVal (create_feature_vector profile1) "active_credit_combo" = 1 ∧
    fieldVal (create_feature_vector profile1) "products_per_year" = 2 / 5 ∧
    fieldVal (create_feature_vector profile1) "tenure_group_Medium" = 1 ∧
    fieldVal (create_feature_vector profile1) "age_group_31-40" = 1 ∧
    fieldVal (create_feature_vector profile1) "age_group_41-50" = 0 ∧
    fieldVal (create_feature_vector profile1) "age_group_51-60" = 0 ∧
    fieldVal (create_feature_vector profile1) "age_group_60+" = 0 ∧
    assessRisk profile1 = [] := by
  refine ⟨?_, ?_, ?_, ?_, ?_, ?_, ?_, ?_, ?_, ?_⟩
  · rw [fv_balance_salary_ratio]
    norm_num [profile1]
  · rw [fv_high_balance]
    norm_num [profile1]
  · rw [fv_active_credit_combo]
    norm_num [profile1]
  · rw [fv_products_per_year]
    norm_num [profile1]
  · rw [fv_tenure_group_Medium]
    norm_num [profile1]
  · rw [fv_age_group_31_40]
    norm_num [profile1]
  · rw [fv_age_group_41_50]
    norm_num [profile1]
  · rw [fv_age_group_51_60]
    norm_num [profile1]
  · rw [fv_age_group_60_plus]
    norm_num [profile1]
  · rfl

/-- C6: the recommendation selector is a pure lookup on the predicted label:
label 1 (Churned) always gets the fixed retention list, label 0 (Retained) the
fixed maintenance list, both of length 4, and no other output ever occurs. -/
theorem churn_C6 :
    recommendationsFor 1 =
      [ "Offer personalized retention campaign",
        "Provide premium customer service",
        "Consider product bundle offers",
        "Implement targeted engagement strategies" ] ∧
    recommendationsFor 0 =
      [ "Continue regular engagement",
        "Offer product upgrades",
        "Maintain service quality",
        "Monitor for any changes" ] ∧
    (recommendationsFor 1).length = 4 ∧
    (recommendationsFor 0).length = 4 ∧
    ∀ z : ℤ, recommendationsFor z = recommendationsFor 1 ∨
      recommendationsFor z = recommendationsFor 0 := by
  refine ⟨rfl, rfl, rfl, rfl, ?_⟩
  intro z
  by_cases h : z = 1
  · left
    rw [h]
  · right
    simp [recommendationsFor, h]

/-- C7 counterexample: an unreadable (non-missing) artifact is not turned into
the model-unavailable diagnostic: the load exception escapes `load_model`
(whose handler catches only FileNotFoundError), so the gate propagates an
uncaught error instead of halting with a message. -/
theorem churn_C7_counterexample :
    main_model_gate ArtifactState.corrupt = Except.error PyExn.otherError := rfl

/-- C7 amended: when the artifact is missing the system halts before inference
and surfaces the model-unavailable diagnostic; when the artifact is unreadable
the load error propagates uncaught (no diagnostic), though inference is still
never reached in either case. -/
theorem churn_C7_amended :
    main_model_gate ArtifactState.missing
      = Except.ok (MainPhase.stoppedNoModel, [modelNotFoundMsg]) ∧
    main_model_gate ArtifactState.corrupt = Except.error PyExn.otherError :=
  ⟨rfl, rfl⟩

/-- C8: the prediction cycle is deterministic: two runs of `runPrediction` on
the same profile with the same model handle give equal outputs, each equal to
the single composed encode/predict/assess/recommend result. -/
theorem churn_C8 (model : ModelFn) (p : CustomerProfile) :
    (runTwice model p).1 = (runTwice model p).2 ∧
    (runTwice model p).1 = runPrediction model p :=
  ⟨rfl, rfl⟩
